import Mathlib

/-!
Shallow embedding of the LUNA USB analyzer capture engine
(src/luna/gateware/usb/analyzer.py, class USBAnalyzer) at its default
memory depth of 16384.

Registers are modelled as natural numbers reduced modulo their signal
width.  The memory-address-shaped signals (header_location,
write_location, read_location, fifo_count) are created with
Signal.like(port.addr) for a depth-16384 memory, hence are 14 bits wide
and wrap modulo 16384; packet_size is Signal(16) and wraps modulo 65536;
the memory is 8 bits wide, so the write port truncates data modulo 256.
One application of step is one clock cycle: all combinational values are
computed from the state at the start of the cycle, and the returned state
holds the registered values visible at the next cycle.

The FSM states follow the source, including CAPTURING: the source drives
the capturing output from f.ongoing("CAPTURING"), a state name that is
created by that call but that no transition ever enters (the capture
state itself is named "CAPTURE").
-/

namespace Luna

def memSize : Nat := 16384

def HEADER_SIZE_BYTES : Nat := 2

def MAX_PACKET_SIZE_BYTES : Nat := 1027

inductive FsmState where
  | IDLE
  | CAPTURE
  | EOP_1
  | EOP_2
  | BABBLE
  | OVERRUN
  | CAPTURING
deriving DecidableEq

structure Input where
  rx_active : Bool
  rx_valid : Bool
  data_out : Nat
  next : Bool

structure AnalyzerState where
  fsm : FsmState
  header_location : Nat
  write_location : Nat
  read_location : Nat
  fifo_count : Nat
  packet_size : Nat
  mem : Nat → Nat

/-- Reset state: all registers reset to zero, the FSM starts in IDLE and
the block RAM is initialized to zeroes. -/
def reset : AnalyzerState where
  fsm := FsmState.IDLE
  header_location := 0
  write_location := 0
  read_location := 0
  fifo_count := 0
  packet_size := 0
  mem := fun _ => 0

/-- data_available output: fifo_count != 0 (analyzer.py line 86). -/
def data_available (s : AnalyzerState) : Bool := s.fifo_count != 0

/-- fifo_full comb value: fifo_count == mem_size (line 103).  As in the
source, the comparison is against 16384 although the 14-bit counter can
never reach that value. -/
def fifo_full (s : AnalyzerState) : Bool := s.fifo_count == memSize

/-- fifo_new_data comb signal: driven to 1 only in the CAPTURE state when
rx_valid is asserted (line 160); defaults to 0 elsewhere. -/
def fifo_new_data (s : AnalyzerState) (i : Input) : Bool :=
  match s.fsm with
  | FsmState.CAPTURE => i.rx_valid
  | _ => false

/-- data_push comb signal: next & data_available (line 105). -/
def data_push (s : AnalyzerState) (i : Input) : Bool :=
  i.next && data_available s

/-- data_pop comb signal: fifo_new_data & ~fifo_full (line 106). -/
def data_pop (s : AnalyzerState) (i : Input) : Bool :=
  fifo_new_data s i && !(fifo_full s)

/-- Registered fifo_count for the next cycle (lines 110-117): unchanged
when both data_push and data_pop occur, incremented on data_push alone,
decremented on data_pop alone (14-bit wrap-around arithmetic). -/
def nextFifoCount (s : AnalyzerState) (i : Input) : Nat :=
  if data_push s i = true ∧ data_pop s i = true then s.fifo_count
  else if data_push s i = true then (s.fifo_count + 1) % memSize
  else if data_pop s i = true then (s.fifo_count + (memSize - 1)) % memSize
  else s.fifo_count

/-- The memory write port this cycle: some (addr, data) when en is
driven, none otherwise.  CAPTURE drives (write_location, data_out) under
rx_valid (lines 147-151); EOP_1 drives (header_location, packet_size
bits 15..7 truncated to the 8-bit port) unconditionally (lines 177-181);
EOP_2 drives (header_location, packet_size bits 7..0) under rx_valid
(lines 190-194); every other state leaves en at 0. -/
def writeEvent (s : AnalyzerState) (i : Input) : Option (Nat × Nat) :=
  match s.fsm with
  | FsmState.CAPTURE =>
      if i.rx_valid = true then some (s.write_location, i.data_out % 256) else none
  | FsmState.EOP_1 => some (s.header_location, s.packet_size / 128 % 256)
  | FsmState.EOP_2 =>
      if i.rx_valid = true then some (s.header_location, s.packet_size % 256) else none
  | _ => none

def applyWrite (m : Nat → Nat) : Option (Nat × Nat) → Nat → Nat
  | none => m
  | some p => fun c => if c = p.1 then p.2 else m c

structure FrameRegs where
  fsm : FsmState
  header_location : Nat
  write_location : Nat
  packet_size : Nat

/-- Next-cycle values of the FSM state register and the frame-related
registers (header_location, write_location, packet_size), per the FSM
blocks of analyzer.py lines 129-218.  In CAPTURE, a later m.next
assignment overrides an earlier one, so the rx_active drop to EOP_1
(line 168) takes precedence over the OVERRUN trip (line 165). -/
def frameStep (s : AnalyzerState) (i : Input) : FrameRegs :=
  match s.fsm with
  | FsmState.IDLE =>
      { fsm := if i.rx_active = true then FsmState.CAPTURE else FsmState.IDLE
        header_location :=
          if i.rx_active = true then s.write_location else s.header_location
        write_location :=
          if i.rx_active = true then (s.write_location + HEADER_SIZE_BYTES) % memSize
          else s.write_location
        packet_size := if i.rx_active = true then 0 else s.packet_size }
  | FsmState.CAPTURE =>
      { fsm :=
          if i.rx_active = false then FsmState.EOP_1
          else if i.rx_valid = true ∧ s.fifo_count = memSize - 1 then FsmState.OVERRUN
          else FsmState.CAPTURE
        header_location := s.header_location
        write_location :=
          if i.rx_valid = true then (s.write_location + 1) % memSize
          else s.write_location
        packet_size :=
          if i.rx_valid = true then (s.packet_size + 1) % 65536
          else s.packet_size }
  | FsmState.EOP_1 =>
      { fsm := FsmState.EOP_2
        header_location := s.header_location
        write_location := s.write_location
        packet_size := s.packet_size }
  | FsmState.EOP_2 =>
      { fsm := if i.rx_active = true then FsmState.CAPTURE else FsmState.IDLE
        header_location :=
          if i.rx_active = true then s.write_location else s.header_location
        write_location :=
          if i.rx_active = true then (s.write_location + HEADER_SIZE_BYTES) % memSize
          else s.write_location
        packet_size := if i.rx_active = true then 0 else s.packet_size }
  | FsmState.BABBLE =>
      { fsm := FsmState.BABBLE
        header_location := s.header_location
        write_location := s.write_location
        packet_size := s.packet_size }
  | FsmState.OVERRUN =>
      { fsm := FsmState.OVERRUN
        header_location := s.header_location
        write_location := s.write_location
        packet_size := s.packet_size }
  | FsmState.CAPTURING =>
      { fsm := FsmState.CAPTURING
        header_location := s.header_location
        write_location := s.write_location
        packet_size := s.packet_size }

/-- One clock cycle of the analyzer.  read_location advances when next is
asserted while data_available is true (lines 96-97); fifo_count follows
the push/pop accounting; the frame registers and FSM follow frameStep;
the memory applies this cycle's write-port event. -/
def step (s : AnalyzerState) (i : Input) : AnalyzerState where
  fsm := (frameStep s i).fsm
  header_location := (frameStep s i).header_location
  write_location := (frameStep s i).write_location
  read_location :=
    if i.next = true ∧ data_available s = true then (s.read_location + 1) % memSize
    else s.read_location
  fifo_count := nextFifoCount s i
  packet_size := (frameStep s i).packet_size
  mem := applyWrite s.mem (writeEvent s i)

def run (s : AnalyzerState) : List Input → AnalyzerState
  | [] => s
  | i :: rest => run (step s i) rest

/-- overrun output: f.ongoing("OVERRUN") (line 125). -/
def overrun (s : AnalyzerState) : Bool :=
  match s.fsm with
  | FsmState.OVERRUN => true
  | _ => false

/-- capturing output: f.ongoing("CAPTURING") (line 126) — note the state
name in the string differs from the actual capture state "CAPTURE". -/
def capturing (s : AnalyzerState) : Bool :=
  match s.fsm with
  | FsmState.CAPTURING => true
  | _ => false

/-- Modular difference of two locations, as used by the spec's
occupancy invariant: (a - b) mod memSize. -/
def modSub (a b : Nat) : Nat := (a + memSize - b) % memSize

/-- A cell index lies in the window of cells the occupancy counter claims
are unread: the cells from read_location (inclusive) spanning fifo_count
positions, modulo memSize. -/
def inWindow (s : AnalyzerState) (c : Nat) : Bool :=
  modSub c s.read_location < s.fifo_count

/-- The FSM states during which a packet record is open (header reserved,
payload being counted, header being backfilled). -/
def framingStates (s : AnalyzerState) : Prop :=
  s.fsm = FsmState.CAPTURE ∨ s.fsm = FsmState.EOP_1 ∨ s.fsm = FsmState.EOP_2

/-- The write cursor accounts exactly for the reserved header plus the
counted payload of the open packet. -/
def goodFrame (s : AnalyzerState) : Prop :=
  s.write_location = (s.header_location + HEADER_SIZE_BYTES + s.packet_size) % memSize

/-- Register values stay inside their signal widths. -/
def WF (s : AnalyzerState) : Prop :=
  s.header_location < memSize ∧ s.write_location < memSize ∧ s.packet_size < 65536

/-- A cycle with line activity but no byte strobe. -/
def inActive : Input where
  rx_active := true
  rx_valid := false
  data_out := 0
  next := false

/-- A cycle delivering one payload byte during line activity. -/
def inByte (d : Nat) : Input where
  rx_active := true
  rx_valid := true
  data_out := d
  next := false

/-- A quiet cycle: no activity, no strobe. -/
def inQuiet : Input where
  rx_active := false
  rx_valid := false
  data_out := 0
  next := false

/-- A cycle in which the consumer asserts next with no bus activity. -/
def strobeOnly : Input where
  rx_active := false
  rx_valid := false
  data_out := 0
  next := true

/-- A cycle in which the consumer asserts next during line activity with
no byte strobe. -/
def drainOnly : Input where
  rx_active := true
  rx_valid := false
  data_out := 0
  next := true

/-- A mid-capture state holding five counted bytes. -/
def s5 : AnalyzerState where
  fsm := FsmState.CAPTURE
  header_location := 0
  write_location := 7
  read_location := 0
  fifo_count := 5
  packet_size := 5
  mem := fun _ => 0

/-- A capture state whose occupancy counter reads memSize - 1. -/
def sFull : AnalyzerState where
  fsm := FsmState.CAPTURE
  header_location := 16380
  write_location := 16383
  read_location := 0
  fifo_count := 16383
  packet_size := 1
  mem := fun _ => 0

/-- Stimulus for a single-byte burst (payload 0x2D) followed by quiet
cycles that let the EOP sequence run to completion. -/
def traceM1 : List Input := [inActive, inByte 45, inQuiet, inQuiet, inQuiet]

/-- Stimulus for the spec's concrete five-byte burst scenario. -/
def trace5 : List Input :=
  [inActive, inByte 45, inByte 0, inByte 1, inByte 2, inByte 3, inQuiet]

/-- Stimulus reaching a capture state with one byte written. -/
def trace2 : List Input := [inActive, inByte 45]

theorem overrun_absorbing (js : List Input) :
    ∀ s : AnalyzerState, s.fsm = FsmState.OVERRUN →
      (run s js).fsm = FsmState.OVERRUN ∧ (run s js).mem = s.mem := by
  induction js with
  | nil =>
      intro s h
      exact ⟨h, rfl⟩
  | cons j rest ih =>
      intro s h
      have hf : (step s j).fsm = FsmState.OVERRUN := by
        simp [step, frameStep, h]
      have hm : (step s j).mem = s.mem := by
        simp [step, writeEvent, applyWrite, h]
      obtain ⟨h1, h2⟩ := ih (step s j) hf
      refine ⟨h1, ?_⟩
      show (run (step s j) rest).mem = s.mem
      rw [h2, hm]

theorem step_ne_babble (s : AnalyzerState) (i : Input)
    (h : s.fsm ≠ FsmState.BABBLE) : (step s i).fsm ≠ FsmState.BABBLE := by
  cases hf : s.fsm with
  | IDLE => simp [step, frameStep, hf]; split <;> simp
  | CAPTURE =>
      simp [step, frameStep, hf]; split
      · simp
      · split <;> simp
  | EOP_1 => simp [step, frameStep, hf]
  | EOP_2 => simp [step, frameStep, hf]; split <;> simp
  | BABBLE => exact absurd hf h
  | OVERRUN => simp [step, frameStep, hf]
  | CAPTURING => simp [step, frameStep, hf]

theorem run_ne_babble (ins : List Input) :
    ∀ s : AnalyzerState, s.fsm ≠ FsmState.BABBLE →
      (run s ins).fsm ≠ FsmState.BABBLE := by
  induction ins with
  | nil => intro s h; exact h
  | cons i rest ih => intro s h; exact ih (step s i) (step_ne_babble s i h)

theorem wf_step (s : AnalyzerState) (i : Input) (hw : WF s) : WF (step s i) := by
  obtain ⟨h1, h2, h3⟩ := hw
  have hm : 0 < memSize := by decide
  have h65 : (0 : Nat) < 65536 := by decide
  cases hf : s.fsm <;>
    simp only [WF, step, frameStep, hf] <;>
    refine ⟨?_, ?_, ?_⟩ <;>
    (try split) <;>
    first
      | exact h1
      | exact h2
      | exact h3
      | exact Nat.mod_lt _ hm
      | exact Nat.mod_lt _ h65
      | exact hm
      | exact h65

theorem inv_step (s : AnalyzerState) (i : Input) (hw : WF s)
    (h : framingStates s → goodFrame s) :
    framingStates (step s i) → goodFrame (step s i) := by
  obtain ⟨h1, h2, h3⟩ := hw
  cases hf : s.fsm with
  | IDLE =>
      intro hfs
      by_cases ha : i.rx_active = true
      · simp [goodFrame, step, frameStep, hf, ha]
      · rcases hfs with hc | hc | hc <;> simp [step, frameStep, hf, ha] at hc
  | CAPTURE =>
      intro _
      have hg : goodFrame s := h (Or.inl hf)
      by_cases hv : i.rx_valid = true
      · simp only [goodFrame, memSize, HEADER_SIZE_BYTES] at hg
        simp only [goodFrame, step, frameStep, hf, hv, if_pos, if_true,
          memSize, HEADER_SIZE_BYTES]
        simp only [memSize] at h1 h2
        omega
      · simpa [goodFrame, step, frameStep, hf, hv] using hg
  | EOP_1 =>
      intro _
      have hg : goodFrame s := h (Or.inr (Or.inl hf))
      simpa [goodFrame, step, frameStep, hf] using hg
  | EOP_2 =>
      intro hfs
      by_cases ha : i.rx_active = true
      · simp [goodFrame, step, frameStep, hf, ha]
      · rcases hfs with hc | hc | hc <;> simp [step, frameStep, hf, ha] at hc
  | BABBLE =>
      intro hfs
      rcases hfs with hc | hc | hc <;> simp [step, frameStep, hf] at hc
  | OVERRUN =>
      intro hfs
      rcases hfs with hc | hc | hc <;> simp [step, frameStep, hf] at hc
  | CAPTURING =>
      intro hfs
      rcases hfs with hc | hc | hc <;> simp [step, frameStep, hf] at hc

theorem wf_reset : WF reset := by
  refine ⟨?_, ?_, ?_⟩ <;> decide

theorem frame_inv_reset : framingStates reset → goodFrame reset := by
  intro h
  rcases h with hc | hc | hc <;> simp [reset] at hc

theorem run_frame_inv (ins : List Input) :
    ∀ s : AnalyzerState, WF s → (framingStates s → goodFrame s) →
      WF (run s ins) ∧ (framingStates (run s ins) → goodFrame (run s ins)) := by
  induction ins with
  | nil => intro s hw hi; exact ⟨hw, hi⟩
  | cons i rest ih =>
      intro s hw hi
      exact ih (step s i) (wf_step s i hw) (inv_step s i hw hi)

/-- C1: the claimed occupancy update rule fails on the code.  The claim
says a producer-write-only cycle increments occupancy and a drain-only
cycle decrements it.  Evaluating the code at a CAPTURE state with
fifo_count = 5: a cycle in which only data_pop occurs (rx_valid with no
next strobe) yields fifo_count 4, and a cycle in which only data_push
occurs (next strobe on available data, no write) yields fifo_count 6 —
the two update arms are swapped relative to the claim and to the
source's own comment. -/
theorem C1_fifo_count_arms_swapped :
    (step s5 (inByte 17)).fifo_count = 4
    ∧ (step s5 drainOnly).fifo_count = 6 := by
  decide

/-- C2: the claimed invariant occupancy = (write_location - read_location)
mod N fails at a reachable state.  One cycle after reset, with rx_active
asserted, the header reservation has advanced write_location to 2 while
fifo_count is still 0, so occupancy differs from the modular cursor
difference. -/
theorem C2_occupancy_invariant_fails :
    (run reset [inActive]).fifo_count = 0
    ∧ modSub (run reset [inActive]).write_location
        (run reset [inActive]).read_location = 2
    ∧ (run reset [inActive]).fifo_count
        ≠ modSub (run reset [inActive]).write_location
            (run reset [inActive]).read_location := by
  decide

/-- C3: the round-trip framing claim fails on the code.  After a
single-byte burst with payload 0x2D from reset, the buffer holds
[0x00, 0x00, 0x2D]: the low length byte at offset 1 was never written,
because the EOP_2 header write is gated on rx_valid, which is deasserted
after an isolated burst.  The claim requires [hi(1), lo(1), 0x2D] =
[0x00, 0x01, 0x2D]. -/
theorem C3_round_trip_framing_fails :
    (run reset traceM1).fsm = FsmState.IDLE
    ∧ (run reset traceM1).packet_size = 1
    ∧ (run reset traceM1).mem 0 = 0
    ∧ (run reset traceM1).mem 1 = 0
    ∧ (run reset traceM1).mem 2 = 45 := by
  decide

/-- C4: the concrete five-byte scenario fails on the code.  Feeding the
burst [0x2D, 0x00, 0x01, 0x02, 0x03] from reset, the first payload byte
wraps fifo_count from 0 to 16383 (the count update is inverted), so the
second byte trips the fifo_count = N - 1 check into OVERRUN: the capture
never completes, occupancy ends at 16382 instead of 7, the header cells
at offsets 0 and 1 are never written, and the last three payload bytes
never reach the buffer. -/
theorem C4_concrete_scenario_fails :
    (run reset trace5).fsm = FsmState.OVERRUN
    ∧ (run reset trace5).fifo_count = 16382
    ∧ (run reset trace5).mem 0 = 0
    ∧ (run reset trace5).mem 1 = 0
    ∧ (run reset trace5).mem 2 = 45
    ∧ (run reset trace5).mem 4 = 0
    ∧ (run reset trace5).mem 5 = 0
    ∧ (run reset trace5).mem 6 = 0 := by
  decide

/-- C5: in CAPTURE with occupancy memSize - 1, receiving one more valid
byte (rx_valid during an active receive) moves the FSM to OVERRUN on the
next cycle; from then on, under every further input sequence, the state
stays OVERRUN, the memory is frozen, no write-port event is ever driven,
and the overrun output is asserted. -/
theorem C5_overrun_trip (s : AnalyzerState) (i : Input)
    (hs : s.fsm = FsmState.CAPTURE) (hc : s.fifo_count = memSize - 1)
    (ha : i.rx_active = true) (hv : i.rx_valid = true) :
    (step s i).fsm = FsmState.OVERRUN
    ∧ overrun (step s i) = true
    ∧ ∀ js : List Input,
        (run (step s i) js).fsm = FsmState.OVERRUN
        ∧ (run (step s i) js).mem = (step s i).mem
        ∧ overrun (run (step s i) js) = true
        ∧ ∀ j : Input, writeEvent (run (step s i) js) j = none := by
  have h1 : (step s i).fsm = FsmState.OVERRUN := by
    simp [step, frameStep, hs, ha, hv, hc]
  refine ⟨h1, ?_, ?_⟩
  · simp [overrun, h1]
  · intro js
    obtain ⟨hf, hm⟩ := overrun_absorbing js (step s i) h1
    refine ⟨hf, hm, ?_, ?_⟩
    · simp [overrun, hf]
    · intro j
      simp [writeEvent, hf]

theorem C5_overrun_trip_witness :
    (step sFull (inByte 7)).fsm = FsmState.OVERRUN
    ∧ overrun (step sFull (inByte 7)) = true
    ∧ (run (step sFull (inByte 7)) [inQuiet]).fsm = FsmState.OVERRUN
    ∧ (run (step sFull (inByte 7)) [inQuiet]).mem = (step sFull (inByte 7)).mem := by
  obtain ⟨h1, h2, h3⟩ :=
    C5_overrun_trip sFull (inByte 7) (by decide) (by decide) (by decide) (by decide)
  exact ⟨h1, h2, (h3 [inQuiet]).1, (h3 [inQuiet]).2.1⟩

/-- C6: the claim that no memory write ever lands on a cell still counted
as unread by the occupancy counter fails on a reachable execution.  Two
cycles after reset (activity, then one payload byte), the inverted count
update has left fifo_count = 16383 with read_location = 0, so the
counter's unread window covers cells 0..16382.  On the next valid byte
the code both drives the write port at address 3 — inside that window —
and the write completes (the cell changes), even though the FSM does
trip to OVERRUN in the same cycle. -/
theorem C6_write_lands_in_counted_window :
    writeEvent (run reset trace2) (inByte 1) = some (3, 1)
    ∧ inWindow (run reset trace2) 3 = true
    ∧ (step (run reset trace2) (inByte 1)).mem 3 = 1
    ∧ (step (run reset trace2) (inByte 1)).fsm = FsmState.OVERRUN := by
  decide

/-- C7: the claim that the capturing output is asserted exactly in the
CAPTURE state fails: one cycle after reset the FSM is in CAPTURE, yet
capturing reads false, because the source drives it from
f.ongoing("CAPTURING"), a state name no transition ever enters.  The
overrun half of the claim behaves as stated in this state. -/
theorem C7_capturing_never_asserted :
    (run reset [inActive]).fsm = FsmState.CAPTURE
    ∧ capturing (run reset [inActive]) = false
    ∧ overrun (run reset [inActive]) = false := by
  decide

/-- C8: asserting the consumer's next strobe in a cycle in which
data_available is false changes neither read_location (it is identical to
its previous value) nor occupancy (fifo_count is the same as it would be
with the strobe deasserted). -/
theorem C8_next_strobe_no_effect (s : AnalyzerState) (i : Input)
    (h : data_available s = false) :
    (step s i).read_location = s.read_location
    ∧ (step s i).fifo_count = (step s { i with next := false }).fifo_count := by
  constructor
  · simp [step, h]
  · simp [step, nextFifoCount, data_push, data_pop, fifo_new_data, h]

theorem C8_next_strobe_no_effect_witness :
    (step reset strobeOnly).read_location = reset.read_location
    ∧ (step reset strobeOnly).fifo_count
        = (step reset { strobeOnly with next := false }).fifo_count :=
  C8_next_strobe_no_effect reset strobeOnly (by decide)

/-- C9: from reset, no input sequence ever brings the FSM to BABBLE; the
next FSM state never depends on packet_size, so no oversize-packet bound
is enforced by any transition; and in CAPTURE during an active receive
the machine stays in CAPTURE except for the occupancy-based OVERRUN
trip. -/
theorem C9_no_babble :
    (∀ ins : List Input, (run reset ins).fsm ≠ FsmState.BABBLE)
    ∧ (∀ (s : AnalyzerState) (i : Input) (n : Nat),
        (step { s with packet_size := n } i).fsm = (step s i).fsm)
    ∧ (∀ (s : AnalyzerState) (i : Input),
        s.fsm = FsmState.CAPTURE → i.rx_active = true →
          ((step s i).fsm = FsmState.CAPTURE
            ∨ (step s i).fsm = FsmState.OVERRUN)) := by
  refine ⟨?_, ?_, ?_⟩
  · intro ins
    exact run_ne_babble ins reset (by decide)
  · intro s i n
    cases hf : s.fsm <;> simp [step, frameStep, hf]
  · intro s i hs ha
    by_cases hv : i.rx_valid = true
    · by_cases hc : s.fifo_count = memSize - 1
      · right
        simp [step, frameStep, hs, ha, hv, hc]
      · left
        simp [step, frameStep, hs, ha, hv, hc]
    · left
      simp [step, frameStep, hs, ha, hv]

theorem C9_no_babble_witness :
    (run reset [inActive, inByte 5, inByte 6]).fsm ≠ FsmState.BABBLE
    ∧ ((step (run reset [inActive]) (inByte 5)).fsm = FsmState.CAPTURE
        ∨ (step (run reset [inActive]) (inByte 5)).fsm = FsmState.OVERRUN) := by
  refine ⟨C9_no_babble.1 [inActive, inByte 5, inByte 6], ?_⟩
  exact C9_no_babble.2.2 (run reset [inActive]) (inByte 5) (by decide) (by decide)

/-- C10: in every state reachable from reset in which the FSM is in
CAPTURE, EOP_1 or EOP_2, the write cursor equals header_location +
HEADER_SIZE_BYTES + packet_size modulo memSize: the reserved two-byte
header slot plus the counted payload bytes account exactly for
write_location, so the header backfill targets the slot reserved for the
current packet. -/
theorem C10_header_accounting (ins : List Input)
    (h : framingStates (run reset ins)) :
    (run reset ins).write_location
      = ((run reset ins).header_location + HEADER_SIZE_BYTES
          + (run reset ins).packet_size) % memSize :=
  (run_frame_inv ins reset wf_reset frame_inv_reset).2 h

theorem C10_header_accounting_witness :
    (run reset [inActive]).fsm = FsmState.CAPTURE
    ∧ (run reset [inActive]).write_location
        = ((run reset [inActive]).header_location + HEADER_SIZE_BYTES
            + (run reset [inActive]).packet_size) % memSize := by
  refine ⟨by decide, ?_⟩
  exact C10_header_accounting [inActive] (Or.inl (by decide))

end Luna
